import Mathlib

/-
Verification of the natural-language design description of the
CS-330 scene/view manager sources (SceneManager.cpp, ViewManager.cpp)
against a shallow embedding of those sources.

Scalar values (C++ `float`) are modelled as real numbers; machine
floating point rounding is not modelled, matching the specification,
which states its numeric properties over exact arithmetic ("within
floating tolerance" for the one golden matrix test, which we prove
exactly).
-/

set_option autoImplicit false

/-- A 3-component vector (glm::vec3). -/
@[ext] structure Vec3 where
  x : ℝ
  y : ℝ
  z : ℝ

/-- A 4-component homogeneous vector (glm::vec4). -/
@[ext] structure Vec4 where
  x : ℝ
  y : ℝ
  z : ℝ
  w : ℝ

/-- glm::radians — degrees to radians. -/
noncomputable def glmRadians (deg : ℝ) : ℝ := deg * Real.pi / 180

/-- glm::scale(s) as its action on a homogeneous column vector. -/
def glmScale (s : Vec3) (v : Vec4) : Vec4 :=
  ⟨s.x * v.x, s.y * v.y, s.z * v.z, v.w⟩

/-- glm::rotate(theta, vec3(1,0,0)) as its action on a homogeneous column vector. -/
noncomputable def glmRotateX (theta : ℝ) (v : Vec4) : Vec4 :=
  ⟨v.x, Real.cos theta * v.y - Real.sin theta * v.z,
   Real.sin theta * v.y + Real.cos theta * v.z, v.w⟩

/-- glm::rotate(theta, vec3(0,1,0)) as its action on a homogeneous column vector. -/
noncomputable def glmRotateY (theta : ℝ) (v : Vec4) : Vec4 :=
  ⟨Real.cos theta * v.x + Real.sin theta * v.z, v.y,
   -(Real.sin theta) * v.x + Real.cos theta * v.z, v.w⟩

/-- glm::rotate(theta, vec3(0,0,1)) as its action on a homogeneous column vector. -/
noncomputable def glmRotateZ (theta : ℝ) (v : Vec4) : Vec4 :=
  ⟨Real.cos theta * v.x - Real.sin theta * v.y,
   Real.sin theta * v.x + Real.cos theta * v.y, v.z, v.w⟩

/-- glm::translate(t) as its action on a homogeneous column vector. -/
def glmTranslate (t : Vec3) (v : Vec4) : Vec4 :=
  ⟨v.x + t.x * v.w, v.y + t.y * v.w, v.z + t.z * v.w, v.w⟩

/-- The model matrix composed by `SceneManager::SetTransformations`
(SceneManager.cpp:249-279): `translation * rotationX * rotationY *
rotationZ * scale`, each rotation built from `glm::radians` of the
degree argument.  Represented by its action on a homogeneous column
vector (matrix product corresponds to nested application). -/
noncomputable def modelViewMatrix (scaleXYZ : Vec3)
    (xRotationDegrees yRotationDegrees zRotationDegrees : ℝ)
    (positionXYZ : Vec3) : Vec4 → Vec4 :=
  fun v =>
    glmTranslate positionXYZ
      (glmRotateX (glmRadians xRotationDegrees)
        (glmRotateY (glmRadians yRotationDegrees)
          (glmRotateZ (glmRadians zRotationDegrees)
            (glmScale scaleXYZ v))))

/-- One texture catalog entry (`m_textureIDs` slots in SceneManager). -/
structure TEXTURE_INFO where
  ID : Nat
  tag : String
deriving DecidableEq

/-- One material catalog entry (OBJECT_MATERIAL in SceneManager). -/
structure OBJECT_MATERIAL where
  ambientColor : Vec3
  ambientStrength : ℝ
  diffuseColor : Vec3
  specularColor : Vec3
  shininess : ℝ
  tag : String

/-- The scan loop of `SceneManager::FindTextureSlot` (SceneManager.cpp:188-206):
walk the loaded-texture entries keeping the running index; the first tag
match returns its index, exhaustion returns the sentinel -1. -/
def findTextureSlotAux : List TEXTURE_INFO → String → Int → Int
  | [], _, _ => -1
  | e :: rest, tag, index =>
      if e.tag = tag then index else findTextureSlotAux rest tag (index + 1)

/-- `SceneManager::FindTextureSlot`: catalog-position of the first entry
whose tag matches, or -1. -/
def findTextureSlot (catalog : List TEXTURE_INFO) (tag : String) : Int :=
  findTextureSlotAux catalog tag 0

/-- The scan loop of `SceneManager::FindMaterial` (SceneManager.cpp:221-238):
on the first tag match the five coefficient fields (not the tag field) are
copied into the by-reference `material` argument and the loop stops; if no
entry matches, the argument is left untouched. -/
def findMaterialLoop : List OBJECT_MATERIAL → String → OBJECT_MATERIAL → OBJECT_MATERIAL
  | [], _, material => material
  | e :: rest, tag, material =>
      if e.tag = tag then
        { material with
          ambientColor := e.ambientColor
          ambientStrength := e.ambientStrength
          diffuseColor := e.diffuseColor
          specularColor := e.specularColor
          shininess := e.shininess }
      else findMaterialLoop rest tag material

/-- `SceneManager::FindMaterial` (SceneManager.cpp:214-241).  Returns the
boolean result together with the (possibly updated) by-reference material
argument.  Note the source returns `false` when the catalog is empty but
`return(true)` unconditionally otherwise — the computed `bFound` flag is
never consulted for the return value. -/
def findMaterial (catalog : List OBJECT_MATERIAL) (tag : String)
    (material : OBJECT_MATERIAL) : Bool × OBJECT_MATERIAL :=
  if catalog.length = 0 then (false, material)
  else (true, findMaterialLoop catalog tag material)

/-- `SceneManager::CreateGLTexture` (SceneManager.cpp:60-124).  The image
decode is modelled by its outcome: `none` for a failed decode, `some c`
for a successful decode reporting `c` color channels.  `newID` stands for
the GL texture id produced by `glGenTextures`.  Returns the boolean result
and the updated texture catalog: channel counts 3 and 4 append one entry
and report success; any other channel count, or a decode failure, reports
failure and leaves the catalog untouched. -/
def createGLTexture (decoded : Option Nat) (newID : Nat) (tag : String)
    (catalog : List TEXTURE_INFO) : Bool × List TEXTURE_INFO :=
  match decoded with
  | some colorChannels =>
      if colorChannels = 3 then (true, catalog ++ [⟨newID, tag⟩])
      else if colorChannels = 4 then (true, catalog ++ [⟨newID, tag⟩])
      else (false, catalog)
  | none => (false, catalog)

/-- One uniform write issued through the shader-manager collaborator. -/
inductive ShaderWrite where
  | intVal (name : String) (v : Int)
  | floatVal (name : String) (v : ℝ)
  | vec2Val (name : String) (u v : ℝ)
  | vec3Val (name : String) (v : Vec3)
  | vec4Val (name : String) (r g b a : ℝ)
  | sampler2DVal (name : String) (v : Int)
  | mat4Val (name : String) (m : Vec4 → Vec4)

/-- `SceneManager::SetTransformations` (SceneManager.cpp:249-279), with the
shader-manager pointer modelled as `Option Unit` (none = NULL).  The result
is `some` of the uniform writes performed; this method is guarded, so a null
shader manager performs no writes and never faults. -/
noncomputable def setTransformations (pShaderManager : Option Unit) (scaleXYZ : Vec3)
    (xRotationDegrees yRotationDegrees zRotationDegrees : ℝ)
    (positionXYZ : Vec3) : Option (List ShaderWrite) :=
  some (match pShaderManager with
    | some _ => [ShaderWrite.mat4Val "model"
        (modelViewMatrix scaleXYZ xRotationDegrees yRotationDegrees
          zRotationDegrees positionXYZ)]
    | none => [])

/-- `SceneManager::SetShaderColor` (SceneManager.cpp:287-306): guarded on a
null shader manager. -/
def setShaderColor (pShaderManager : Option Unit)
    (redColorValue greenColorValue blueColorValue alphaValue : ℝ) :
    Option (List ShaderWrite) :=
  some (match pShaderManager with
    | some _ => [ShaderWrite.intVal "bUseTexture" 0,
        ShaderWrite.vec4Val "objectColor" redColorValue greenColorValue
          blueColorValue alphaValue]
    | none => [])

/-- `SceneManager::SetShaderTexture` (SceneManager.cpp:314-325): guarded on a
null shader manager; the unit index is resolved by `FindTextureSlot` (-1 on a
miss). -/
def setShaderTexture (pShaderManager : Option Unit)
    (catalog : List TEXTURE_INFO) (textureTag : String) :
    Option (List ShaderWrite) :=
  some (match pShaderManager with
    | some _ => [ShaderWrite.intVal "bUseTexture" 1,
        ShaderWrite.sampler2DVal "objectTexture" (findTextureSlot catalog textureTag)]
    | none => [])

/-- `SceneManager::SetTextureUVScale` (SceneManager.cpp:333-339): guarded on a
null shader manager. -/
def setTextureUVScale (pShaderManager : Option Unit) (u v : ℝ) :
    Option (List ShaderWrite) :=
  some (match pShaderManager with
    | some _ => [ShaderWrite.vec2Val "UVscale" u v]
    | none => [])

/-- `SceneManager::SetShaderMaterial` (SceneManager.cpp:347-365).  `scratch`
stands for the default-constructed (indeterminate) local `OBJECT_MATERIAL`
the coefficients are copied into.  Unlike the other uniform setters there is
no null check on the shader-manager pointer: when the catalog is non-empty
and `FindMaterial` reports found, the pointer is dereferenced for the five
uploads — a null pointer there is a fault, modelled as `none`. -/
def setShaderMaterial (pShaderManager : Option Unit)
    (catalog : List OBJECT_MATERIAL) (materialTag : String)
    (scratch : OBJECT_MATERIAL) : Option (List ShaderWrite) :=
  if 0 < catalog.length then
    let r := findMaterial catalog materialTag scratch
    if r.1 then
      match pShaderManager with
      | some _ =>
          some [ShaderWrite.vec3Val "material.ambientColor" r.2.ambientColor,
            ShaderWrite.floatVal "material.ambientStrength" r.2.ambientStrength,
            ShaderWrite.vec3Val "material.diffuseColor" r.2.diffuseColor,
            ShaderWrite.vec3Val "material.specularColor" r.2.specularColor,
            ShaderWrite.floatVal "material.shininess" r.2.shininess]
      | none => none
    else some []
  else some []

/-- The "grass" material defined in `DefineObjectMaterials`
(SceneManager.cpp:411-418), used as a concrete one-entry catalog. -/
noncomputable def grassMaterial : OBJECT_MATERIAL :=
  ⟨⟨2/5, 3/5, 3/10⟩, 3/100, ⟨2/5, 3/5, 3/10⟩, ⟨7/20, 9/20, 7/20⟩, 5, "grass"⟩

/-- An all-zero scratch material standing for the default-constructed local
`OBJECT_MATERIAL` in `SetShaderMaterial`. -/
def zeroMaterial : OBJECT_MATERIAL := ⟨⟨0, 0, 0⟩, 0, ⟨0, 0, 0⟩, ⟨0, 0, 0⟩, 0, ""⟩

/-- Modelled from the spec: the camera object (class `Camera`, header not in
the repository sources).  The spec calls it "a well-known third-party camera
helper" whose orientation update "recompute[s] camera basis vectors from the
loaded yaw/pitch" and clamps pitch; its attributes are the spec's camera-pose
row: position, front vector, up vector, yaw, pitch, zoom/FOV, movement speed
(plus the helper's right vector, world-up vector and mouse sensitivity). -/
@[ext] structure Camera where
  Position : Vec3
  Front : Vec3
  Up : Vec3
  Right : Vec3
  WorldUp : Vec3
  Yaw : ℝ
  Pitch : ℝ
  MovementSpeed : ℝ
  MouseSensitivity : ℝ
  Zoom : ℝ

/-- Cross product of two 3-vectors (glm::cross). -/
def vcross (a b : Vec3) : Vec3 :=
  ⟨a.y * b.z - a.z * b.y, a.z * b.x - a.x * b.z, a.x * b.y - a.y * b.x⟩

/-- glm::normalize on a 3-vector. -/
noncomputable def vnormalize (v : Vec3) : Vec3 :=
  let n := Real.sqrt (v.x ^ 2 + v.y ^ 2 + v.z ^ 2)
  ⟨v.x / n, v.y / n, v.z / n⟩

/-- Modelled from the spec: the front vector the camera helper recomputes
from yaw and pitch (degrees). -/
noncomputable def cameraFrontFrom (yaw pitch : ℝ) : Vec3 :=
  vnormalize ⟨Real.cos (glmRadians yaw) * Real.cos (glmRadians pitch),
    Real.sin (glmRadians pitch),
    Real.sin (glmRadians yaw) * Real.cos (glmRadians pitch)⟩

/-- Modelled from the spec: the right vector the camera helper recomputes
from the front vector and the world-up vector. -/
noncomputable def cameraRightFrom (yaw pitch : ℝ) (worldUp : Vec3) : Vec3 :=
  vnormalize (vcross (cameraFrontFrom yaw pitch) worldUp)

/-- Modelled from the spec: the up vector the camera helper recomputes from
the right and front vectors. -/
noncomputable def cameraUpFrom (yaw pitch : ℝ) (worldUp : Vec3) : Vec3 :=
  vnormalize (vcross (cameraRightFrom yaw pitch worldUp) (cameraFrontFrom yaw pitch))

/-- Modelled from the spec: the camera helper's basis-vector recompute —
front, right and up are rebuilt from the current yaw, pitch and world-up;
all other attributes are untouched. -/
noncomputable def updateCameraVectors (c : Camera) : Camera :=
  { c with
    Front := cameraFrontFrom c.Yaw c.Pitch
    Right := cameraRightFrom c.Yaw c.Pitch c.WorldUp
    Up := cameraUpFrom c.Yaw c.Pitch c.WorldUp }

/-- Modelled from the spec: the camera helper's mouse-orientation update —
offsets scaled by the mouse sensitivity are added to yaw and pitch, pitch is
constrained to [-89, 89], and the basis vectors are recomputed.  (All calls
in ViewManager.cpp use the default pitch-constraining behaviour.) -/
noncomputable def processMouseMovement (c : Camera) (xoffset yoffset : ℝ) : Camera :=
  let yaw := c.Yaw + xoffset * c.MouseSensitivity
  let pitchRaw := c.Pitch + yoffset * c.MouseSensitivity
  let pitch := if pitchRaw > 89 then 89 else if pitchRaw < -89 then -89 else pitchRaw
  updateCameraVectors { c with Yaw := yaw, Pitch := pitch }

/-- Modelled from the spec: the camera helper's default construction —
yaw -90, pitch 0, movement speed 2.5, mouse sensitivity 0.1, zoom 45,
world up (0,1,0), followed by the basis-vector recompute. -/
noncomputable def defaultCamera : Camera :=
  updateCameraVectors
    ⟨⟨0, 0, 0⟩, ⟨0, 0, -1⟩, ⟨0, 1, 0⟩, ⟨1, 0, 0⟩, ⟨0, 1, 0⟩, -90, 0, 5/2, 1/10, 45⟩

/-- The translation-unit state of ViewManager.cpp (its anonymous-namespace
globals, ViewManager.cpp:18-65) together with the live camera object.
`cameraStatesReady` models the source's `cameraStatesInitialized` flag. -/
@[ext] structure VMState where
  camera : Camera
  bOrthographicProjection : Bool
  cameraStatesReady : Bool
  perspectivePosition : Vec3
  perspectiveFront : Vec3
  perspectiveUp : Vec3
  perspectiveYaw : ℝ
  perspectivePitch : ℝ
  orthographicPosition : Vec3
  orthographicFront : Vec3
  orthographicUp : Vec3
  orthographicYaw : ℝ
  orthographicPitch : ℝ
  gCameraSpeed : ℝ
  gLastX : ℝ
  gLastY : ℝ
  gFirstMouse : Bool

/-- The camera as set up by the `ViewManager` constructor
(ViewManager.cpp:72-101): default camera, then position (0,5,12),
front (0,-0.5,-2), up (0,1,0) and zoom 80 overridden. -/
noncomputable def initialCamera : Camera :=
  { defaultCamera with
    Position := ⟨0, 5, 12⟩
    Front := ⟨0, -(1/2), -2⟩
    Up := ⟨0, 1, 0⟩
    Zoom := 80 }

/-- The state after the `ViewManager` constructor (ViewManager.cpp:72-101)
with the globals at their initializers (ViewManager.cpp:18-65): perspective
slot copied from the live camera, orthographic slot at the fixed top-down
pose, speed 2.5, last mouse position at the window center (500, 400),
first-mouse flag set. -/
noncomputable def initialViewState : VMState where
  camera := initialCamera
  bOrthographicProjection := false
  cameraStatesReady := true
  perspectivePosition := ⟨0, 5, 12⟩
  perspectiveFront := ⟨0, -(1/2), -2⟩
  perspectiveUp := ⟨0, 1, 0⟩
  perspectiveYaw := -90
  perspectivePitch := 0
  orthographicPosition := ⟨0, 15, 0⟩
  orthographicFront := ⟨0, -1, 0⟩
  orthographicUp := ⟨0, 0, -1⟩
  orthographicYaw := -90
  orthographicPitch := -89
  gCameraSpeed := 5/2
  gLastX := 500
  gLastY := 400
  gFirstMouse := true

/-- `ViewManager::SwitchToOrthographic` (ViewManager.cpp:230-253): when not
already orthographic (and the stored states are ready), save the live
camera's position/front/up/yaw/pitch into the perspective slot, load the
orthographic slot's five fields into the live camera, trigger the
basis-vector recompute via a zero-offset mouse update, and set the mode
flag.  Otherwise a no-op. -/
noncomputable def switchToOrthographic (s : VMState) : VMState :=
  if !s.bOrthographicProjection && s.cameraStatesReady then
    { s with
      perspectivePosition := s.camera.Position
      perspectiveFront := s.camera.Front
      perspectiveUp := s.camera.Up
      perspectiveYaw := s.camera.Yaw
      perspectivePitch := s.camera.Pitch
      camera := processMouseMovement
        { s.camera with
          Position := s.orthographicPosition
          Front := s.orthographicFront
          Up := s.orthographicUp
          Yaw := s.orthographicYaw
          Pitch := s.orthographicPitch } 0 0
      bOrthographicProjection := true }
  else s

/-- `ViewManager::SwitchToPerspective` (ViewManager.cpp:261-284): the
symmetric transition, guarded on currently being orthographic. -/
noncomputable def switchToPerspective (s : VMState) : VMState :=
  if s.bOrthographicProjection && s.cameraStatesReady then
    { s with
      orthographicPosition := s.camera.Position
      orthographicFront := s.camera.Front
      orthographicUp := s.camera.Up
      orthographicYaw := s.camera.Yaw
      orthographicPitch := s.camera.Pitch
      camera := processMouseMovement
        { s.camera with
          Position := s.perspectivePosition
          Front := s.perspectiveFront
          Up := s.perspectiveUp
          Yaw := s.perspectiveYaw
          Pitch := s.perspectivePitch } 0 0
      bOrthographicProjection := false }
  else s

/-- `ViewManager::Mouse_Scroll_Callback` (ViewManager.cpp:200-222): add the
vertical scroll delta times 0.5 to the speed scalar, clamp it to
[0.5, 10.0], and push it into the camera object (the camera pointer is live
for the whole window lifetime). -/
noncomputable def mouseScrollCallback (s : VMState) (_xoffset yoffset : ℝ) : VMState :=
  let raw := s.gCameraSpeed + yoffset * (1/2)
  let sp := if raw < 1/2 then 1/2 else if raw > 10 then 10 else raw
  { s with gCameraSpeed := sp, camera := { s.camera with MovementSpeed := sp } }

/-- The orientation delta `ViewManager::Mouse_Position_Callback`
(ViewManager.cpp:167-190) forwards to the camera: on the first call after
activation the last-position variables are first set to the reported
coordinates (so the delta is zero); afterwards it is the offset from the
recorded last position, with the vertical component inverted. -/
def mouseOffsets (s : VMState) (xMousePos yMousePos : ℝ) : ℝ × ℝ :=
  let lastX := if s.gFirstMouse then xMousePos else s.gLastX
  let lastY := if s.gFirstMouse then yMousePos else s.gLastY
  (xMousePos - lastX, lastY - yMousePos)

/-- `ViewManager::Mouse_Position_Callback` (ViewManager.cpp:167-190): record
the reported position, clear the first-mouse flag, and forward the computed
offsets to the camera's orientation update. -/
noncomputable def mousePositionCallback (s : VMState) (xMousePos yMousePos : ℝ) : VMState :=
  { s with
    gLastX := xMousePos
    gLastY := yMousePos
    gFirstMouse := false
    camera := processMouseMovement s.camera
      (mouseOffsets s xMousePos yMousePos).1 (mouseOffsets s xMousePos yMousePos).2 }

/-- A sequence of scroll-callback invocations (vertical deltas only; the
horizontal component is unused by the source). -/
noncomputable def applyScrolls (s : VMState) (deltas : List ℝ) : VMState :=
  deltas.foldl (fun st d => mouseScrollCallback st 0 d) s

/-- A concrete perspective-mode camera whose front/right/up vectors agree
with its yaw -90 and pitch 0 — the shape of any pose the camera helper's
orientation update has produced. -/
noncomputable def consistentCamera : Camera :=
  ⟨⟨0, 5, 12⟩, ⟨0, 0, -1⟩, ⟨0, 1, 0⟩, ⟨1, 0, 0⟩, ⟨0, 1, 0⟩, -90, 0, 5/2, 1/10, 80⟩

/-- The initial view state with its camera replaced by the consistent pose. -/
noncomputable def consistentState : VMState :=
  { initialViewState with camera := consistentCamera }

theorem glmRadians_zero : glmRadians 0 = 0 := by
  unfold glmRadians; ring

theorem glmRadians_ninety : glmRadians 90 = Real.pi / 2 := by
  unfold glmRadians; ring

theorem glmRadians_neg_ninety : glmRadians (-90) = -(Real.pi / 2) := by
  unfold glmRadians; ring

/-- Claim C1: the claim says a material-tag lookup miss on a non-empty
catalog makes `SetShaderMaterial` upload nothing.  Evaluating the code at
the failing input shows the opposite: `FindMaterial` reports found for any
tag once the catalog is non-empty, so all five material uniforms are
uploaded from the never-written scratch material. -/
theorem setShaderMaterial_miss_uploads_scratch :
    setShaderMaterial (some ()) [grassMaterial] "missing" zeroMaterial =
      some [ShaderWrite.vec3Val "material.ambientColor" ⟨0, 0, 0⟩,
        ShaderWrite.floatVal "material.ambientStrength" 0,
        ShaderWrite.vec3Val "material.diffuseColor" ⟨0, 0, 0⟩,
        ShaderWrite.vec3Val "material.specularColor" ⟨0, 0, 0⟩,
        ShaderWrite.floatVal "material.shininess" 0] := rfl

/-- Claim C4: a decode reporting 3 or 4 channels makes `CreateGLTexture`
succeed with the catalog extended by exactly one entry; any other channel
count, or a failed decode, makes it fail with the catalog unchanged. -/
theorem createGLTexture_catalog_effect (decoded : Option Nat) (newID : Nat)
    (tag : String) (catalog : List TEXTURE_INFO) :
    ((decoded = some 3 ∨ decoded = some 4) →
      createGLTexture decoded newID tag catalog = (true, catalog ++ [⟨newID, tag⟩]) ∧
      (createGLTexture decoded newID tag catalog).2.length = catalog.length + 1) ∧
    (∀ c : Nat, decoded = some c → c ≠ 3 → c ≠ 4 →
      createGLTexture decoded newID tag catalog = (false, catalog)) ∧
    (decoded = none → createGLTexture decoded newID tag catalog = (false, catalog)) := by
  refine ⟨fun h => ?_, fun c hc h3 h4 => ?_, fun h => ?_⟩
  · rcases h with h | h <;> subst h <;> simp [createGLTexture]
  · subst hc; simp [createGLTexture, h3, h4]
  · subst h; rfl

theorem createGLTexture_catalog_effect_witness :
    ((some 3 = some 3 ∨ (some 3 : Option Nat) = some 4)) ∧
    createGLTexture (some 3) 1 "grass" [] = (true, [⟨1, "grass"⟩]) ∧
    createGLTexture (some 2) 1 "grass" [] = (false, []) ∧
    createGLTexture (none : Option Nat) 1 "grass" [] = (false, []) := by
  refine ⟨Or.inl rfl, ?_, ?_, ?_⟩
  · exact ((createGLTexture_catalog_effect (some 3) 1 "grass" []).1 (Or.inl rfl)).1
  · exact (createGLTexture_catalog_effect (some 2) 1 "grass" []).2.1 2 rfl
      (by decide) (by decide)
  · exact (createGLTexture_catalog_effect none 1 "grass" []).2.2 rfl

/-- Claim C5: `SetTransformations` uploads the model matrix composed as
`Translation * RotationX * RotationY * RotationZ * Scale`; for
scale (2,1,1), rotation (0,90,0) degrees and translation (1,0,0) that matrix
maps (0,0,0,1) to (1,0,0,1) and (1,0,0,1) to (1,0,-2,1) (proved exactly). -/
theorem setTransformations_model_golden :
    (∀ (sc : Vec3) (rx ry rz : ℝ) (pos : Vec3),
      setTransformations (some ()) sc rx ry rz pos =
        some [ShaderWrite.mat4Val "model" (modelViewMatrix sc rx ry rz pos)]) ∧
    modelViewMatrix ⟨2, 1, 1⟩ 0 90 0 ⟨1, 0, 0⟩ ⟨0, 0, 0, 1⟩ = ⟨1, 0, 0, 1⟩ ∧
    modelViewMatrix ⟨2, 1, 1⟩ 0 90 0 ⟨1, 0, 0⟩ ⟨1, 0, 0, 1⟩ = ⟨1, 0, -2, 1⟩ := by
  refine ⟨fun _ _ _ _ _ => rfl, ?_, ?_⟩ <;>
    simp [modelViewMatrix, glmTranslate, glmRotateX, glmRotateY, glmRotateZ,
      glmScale, glmRadians_zero, glmRadians_ninety, Real.cos_pi_div_two,
      Real.sin_pi_div_two, Real.cos_zero, Real.sin_zero]

/-- Claim C6: `FindTextureSlot` resolves the first matching entry's
insertion-order index (including duplicate tags and the empty string) and
returns -1 on a miss.  The material side diverges from the claim: on a
non-empty catalog `FindMaterial` returns `true` — not its not-found result —
for an absent tag, leaving the out-parameter untouched. -/
theorem find_lookup_evaluations :
    findTextureSlot [⟨7, "a"⟩, ⟨8, "a"⟩, ⟨9, "b"⟩] "a" = 0 ∧
    findTextureSlot [⟨7, "a"⟩, ⟨8, "a"⟩, ⟨9, "b"⟩] "b" = 2 ∧
    findTextureSlot [⟨7, "a"⟩, ⟨8, "a"⟩, ⟨9, "b"⟩] "" = -1 ∧
    findTextureSlot [] "a" = -1 ∧
    findMaterial [grassMaterial] "missing" zeroMaterial = (true, zeroMaterial) ∧
    findMaterial [] "missing" zeroMaterial = (false, zeroMaterial) :=
  ⟨rfl, rfl, rfl, rfl, rfl, rfl⟩

/-- Claim C9: the first mouse-position callback after activation forwards a
zero orientation delta whatever the absolute coordinates are; later calls
forward the offset from the recorded last position with the vertical
component inverted. -/
theorem mousePositionCallback_offsets (s : VMState) (x y : ℝ) :
    (s.gFirstMouse = true → mouseOffsets s x y = (0, 0)) ∧
    (s.gFirstMouse = false → mouseOffsets s x y = (x - s.gLastX, s.gLastY - y)) ∧
    (mousePositionCallback s x y).camera =
      processMouseMovement s.camera (mouseOffsets s x y).1 (mouseOffsets s x y).2 := by
  refine ⟨fun h => ?_, fun h => ?_, rfl⟩
  · simp [mouseOffsets, h]
  · simp [mouseOffsets, h]

theorem mousePositionCallback_offsets_witness :
    initialViewState.gFirstMouse = true ∧
    mouseOffsets initialViewState 777 (-3) = (0, 0) :=
  ⟨rfl, (mousePositionCallback_offsets initialViewState 777 (-3)).1 rfl⟩

/-- Claim C10: with a null shader-manager pointer the four guarded setters
perform no uniform writes and never fault, while `SetShaderMaterial` is
unguarded: whenever the material catalog is non-empty and the lookup reports
found it dereferences the null pointer (modelled as the `none` outcome). -/
theorem nullShader_guards (sc : Vec3) (rx ry rz : ℝ) (pos : Vec3)
    (r g b a : ℝ) (tcat : List TEXTURE_INFO) (ttag : String) (u v : ℝ)
    (mcat : List OBJECT_MATERIAL) (mtag : String) (scratch : OBJECT_MATERIAL) :
    setTransformations none sc rx ry rz pos = some [] ∧
    setShaderColor none r g b a = some [] ∧
    setShaderTexture none tcat ttag = some [] ∧
    setTextureUVScale none u v = some [] ∧
    (0 < mcat.length → (findMaterial mcat mtag scratch).1 = true →
      setShaderMaterial none mcat mtag scratch = none) := by
  refine ⟨rfl, rfl, rfl, rfl, fun h1 h2 => ?_⟩
  simp [setShaderMaterial, h1, h2]

theorem nullShader_guards_witness :
    0 < [grassMaterial].length ∧
    (findMaterial [grassMaterial] "missing" zeroMaterial).1 = true ∧
    setShaderMaterial none [grassMaterial] "missing" zeroMaterial = none := by
  refine ⟨by simp, rfl, ?_⟩
  exact (nullShader_guards ⟨0, 0, 0⟩ 0 0 0 ⟨0, 0, 0⟩ 0 0 0 0 [] "" 0 0
    [grassMaterial] "missing" zeroMaterial).2.2.2.2 (by simp) rfl

/-- Claim C8: a second `SwitchToOrthographic` in a row is a complete no-op —
after the first call the mode flag is set, so the guard fails and the whole
state (camera pose included) is exactly that of a single call. -/
theorem switchToOrthographic_idempotent (s : VMState) :
    switchToOrthographic (switchToOrthographic s) = switchToOrthographic s := by
  by_cases h : (!s.bOrthographicProjection && s.cameraStatesReady) = true
  · simp [switchToOrthographic, h]
  · simp [switchToOrthographic, h]

theorem mouseScrollCallback_step (s : VMState) (x d : ℝ) :
    (1/2 ≤ (mouseScrollCallback s x d).gCameraSpeed ∧
      (mouseScrollCallback s x d).gCameraSpeed ≤ 10) ∧
    (mouseScrollCallback s x d).camera.MovementSpeed =
      (mouseScrollCallback s x d).gCameraSpeed := by
  refine ⟨?_, rfl⟩
  simp only [mouseScrollCallback]
  split_ifs with h1 h2
  · exact ⟨le_refl _, by norm_num⟩
  · exact ⟨by norm_num, le_refl _⟩
  · exact ⟨le_of_not_lt h1, le_of_not_lt h2⟩

theorem applyScrolls_ne_nil_bounds (deltas : List ℝ) :
    ∀ s : VMState, deltas ≠ [] →
      (1/2 ≤ (applyScrolls s deltas).gCameraSpeed ∧
        (applyScrolls s deltas).gCameraSpeed ≤ 10) ∧
      (applyScrolls s deltas).camera.MovementSpeed =
        (applyScrolls s deltas).gCameraSpeed := by
  induction deltas with
  | nil => exact fun s h => absurd rfl h
  | cons d rest ih =>
    intro s _
    cases rest with
    | nil => simpa [applyScrolls] using mouseScrollCallback_step s 0 d
    | cons d2 r2 =>
      have step : applyScrolls s (d :: d2 :: r2) =
          applyScrolls (mouseScrollCallback s 0 d) (d2 :: r2) := rfl
      rw [step]
      exact ih (mouseScrollCallback s 0 d) (by simp)

/-- Claim C7: starting from the initial state (speed 2.5), after each
invocation in any sequence of scroll callbacks — each vertical delta scaled
by 0.5 and then clamped — the speed scalar lies in [0.5, 10.0] and has been
pushed into the camera's movement speed. -/
theorem scroll_speed_clamped (deltas : List ℝ) (i : ℕ) (h : i < deltas.length) :
    (1/2 ≤ (applyScrolls initialViewState (deltas.take (i + 1))).gCameraSpeed ∧
      (applyScrolls initialViewState (deltas.take (i + 1))).gCameraSpeed ≤ 10) ∧
    (applyScrolls initialViewState (deltas.take (i + 1))).camera.MovementSpeed =
      (applyScrolls initialViewState (deltas.take (i + 1))).gCameraSpeed := by
  apply applyScrolls_ne_nil_bounds
  have hpos : 0 < (deltas.take (i + 1)).length := by
    rw [List.length_take]
    exact lt_min (Nat.succ_pos i) (Nat.lt_of_le_of_lt (Nat.zero_le i) h)
  exact List.ne_nil_of_length_pos hpos

theorem scroll_speed_clamped_witness :
    0 < [(100 : ℝ)].length ∧
    ((1/2 ≤ (applyScrolls initialViewState ([(100 : ℝ)].take (0 + 1))).gCameraSpeed ∧
      (applyScrolls initialViewState ([(100 : ℝ)].take (0 + 1))).gCameraSpeed ≤ 10) ∧
    (applyScrolls initialViewState ([(100 : ℝ)].take (0 + 1))).camera.MovementSpeed =
      (applyScrolls initialViewState ([(100 : ℝ)].take (0 + 1))).gCameraSpeed) :=
  ⟨by simp, scroll_speed_clamped [100] 0 (by simp)⟩

theorem processMouseMovement_zero_pose (c : Camera)
    (hlo : -89 ≤ c.Pitch) (hhi : c.Pitch ≤ 89) :
    processMouseMovement c 0 0 = updateCameraVectors c := by
  unfold processMouseMovement
  simp only [zero_mul, add_zero]
  rw [if_neg (by linarith), if_neg (by linarith)]

theorem cameraFrontFrom_example : cameraFrontFrom (-90) 0 = ⟨0, 0, -1⟩ := by
  unfold cameraFrontFrom vnormalize
  rw [glmRadians_neg_ninety, glmRadians_zero]
  norm_num [Real.cos_pi_div_two, Real.sin_pi_div_two, Real.cos_zero, Real.sin_zero,
    Real.cos_neg, Real.sin_neg, Real.sqrt_one]

theorem cameraRightFrom_example : cameraRightFrom (-90) 0 ⟨0, 1, 0⟩ = ⟨1, 0, 0⟩ := by
  unfold cameraRightFrom
  rw [cameraFrontFrom_example]
  unfold vcross vnormalize
  norm_num [Real.sqrt_one]

theorem cameraUpFrom_example : cameraUpFrom (-90) 0 ⟨0, 1, 0⟩ = ⟨0, 1, 0⟩ := by
  unfold cameraUpFrom
  rw [cameraRightFrom_example, cameraFrontFrom_example]
  unfold vcross vnormalize
  norm_num [Real.sqrt_one]

theorem updateCameraVectors_consistent :
    updateCameraVectors consistentCamera = consistentCamera := by
  show ({ consistentCamera with
      Front := cameraFrontFrom (-90) 0
      Right := cameraRightFrom (-90) 0 ⟨0, 1, 0⟩
      Up := cameraUpFrom (-90) 0 ⟨0, 1, 0⟩ } : Camera) = consistentCamera
  rw [cameraFrontFrom_example, cameraRightFrom_example, cameraUpFrom_example]
  rfl

/-- Counterexample to claim C2: starting from the constructed initial state —
a reachable PERSPECTIVE pose — the toggle round trip does not restore the
front vector bit-for-bit: the zero-offset orientation update at the end of
each switch overwrites the restored front (0,-0.5,-2) with the vector
recomputed from yaw -90 / pitch 0, namely (0,0,-1). -/
theorem roundTrip_initial_front_changes :
    (switchToPerspective (switchToOrthographic initialViewState)).camera.Front ≠
      initialViewState.camera.Front := by
  have hy : (switchToPerspective (switchToOrthographic initialViewState)).camera.Front.y = 0 := by
    norm_num [switchToOrthographic, switchToPerspective, initialViewState, initialCamera,
      defaultCamera, processMouseMovement, updateCameraVectors, cameraFrontFrom,
      vnormalize, glmRadians_zero, Real.sin_zero]
  have hy0 : initialViewState.camera.Front.y = -(1/2) := rfl
  intro hEq
  rw [hEq, hy0] at hy
  norm_num at hy

/-- Claim C2 as amended: for every PERSPECTIVE-state pose whose basis
vectors are consistent with its yaw/pitch (a fixed point of the camera
helper's recompute — true of any pose the orientation update has produced)
and whose pitch lies in the clamp range [-89, 89], the toggle round trip
restores the full camera (position, front, up, yaw, pitch included) exactly
and returns to PERSPECTIVE mode. -/
theorem roundTrip_restores_consistent_pose (s : VMState)
    (hmode : s.bOrthographicProjection = false)
    (hready : s.cameraStatesReady = true)
    (hlo : -89 ≤ s.camera.Pitch) (hhi : s.camera.Pitch ≤ 89)
    (hfix : updateCameraVectors s.camera = s.camera) :
    (switchToPerspective (switchToOrthographic s)).camera = s.camera ∧
    (switchToPerspective (switchToOrthographic s)).bOrthographicProjection = false := by
  have hg1 : (!s.bOrthographicProjection && s.cameraStatesReady) = true := by
    rw [hmode, hready]; rfl
  have e1 : switchToOrthographic s = { s with
      perspectivePosition := s.camera.Position
      perspectiveFront := s.camera.Front
      perspectiveUp := s.camera.Up
      perspectiveYaw := s.camera.Yaw
      perspectivePitch := s.camera.Pitch
      camera := processMouseMovement { s.camera with
          Position := s.orthographicPosition
          Front := s.orthographicFront
          Up := s.orthographicUp
          Yaw := s.orthographicYaw
          Pitch := s.orthographicPitch } 0 0
      bOrthographicProjection := true } := by
    unfold switchToOrthographic
    rw [if_pos hg1]
  have hg2 : ((switchToOrthographic s).bOrthographicProjection &&
      (switchToOrthographic s).cameraStatesReady) = true := by
    rw [e1]; simp [hready]
  have e2 : switchToPerspective (switchToOrthographic s) = { (switchToOrthographic s) with
      orthographicPosition := (switchToOrthographic s).camera.Position
      orthographicFront := (switchToOrthographic s).camera.Front
      orthographicUp := (switchToOrthographic s).camera.Up
      orthographicYaw := (switchToOrthographic s).camera.Yaw
      orthographicPitch := (switchToOrthographic s).camera.Pitch
      camera := processMouseMovement { (switchToOrthographic s).camera with
          Position := (switchToOrthographic s).perspectivePosition
          Front := (switchToOrthographic s).perspectiveFront
          Up := (switchToOrthographic s).perspectiveUp
          Yaw := (switchToOrthographic s).perspectiveYaw
          Pitch := (switchToOrthographic s).perspectivePitch } 0 0
      bOrthographicProjection := false } := by
    unfold switchToPerspective
    rw [if_pos hg2]
  have hF : cameraFrontFrom s.camera.Yaw s.camera.Pitch = s.camera.Front :=
    congrArg Camera.Front hfix
  have hR : cameraRightFrom s.camera.Yaw s.camera.Pitch s.camera.WorldUp = s.camera.Right :=
    congrArg Camera.Right hfix
  have hU : cameraUpFrom s.camera.Yaw s.camera.Pitch s.camera.WorldUp = s.camera.Up :=
    congrArg Camera.Up hfix
  constructor
  · rw [e2, e1]
    refine (processMouseMovement_zero_pose _ hlo hhi).trans ?_
    exact Camera.ext rfl hF hU hR rfl rfl rfl rfl rfl rfl
  · rw [e2]

/-- Witness for the amended claim C2 at the consistent concrete pose. -/
theorem roundTrip_restores_witness :
    consistentState.bOrthographicProjection = false ∧
    consistentState.cameraStatesReady = true ∧
    (-89 ≤ consistentState.camera.Pitch ∧ consistentState.camera.Pitch ≤ 89) ∧
    updateCameraVectors consistentState.camera = consistentState.camera ∧
    ((switchToPerspective (switchToOrthographic consistentState)).camera =
        consistentState.camera ∧
      (switchToPerspective (switchToOrthographic consistentState)).bOrthographicProjection =
        false) := by
  have hfix : updateCameraVectors consistentState.camera = consistentState.camera :=
    updateCameraVectors_consistent
  exact ⟨rfl, rfl,
    ⟨by norm_num [consistentState, consistentCamera],
     by norm_num [consistentState, consistentCamera]⟩, hfix,
    roundTrip_restores_consistent_pose consistentState rfl rfl
      (by norm_num [consistentState, consistentCamera])
      (by norm_num [consistentState, consistentCamera]) hfix⟩

/-- Counterexample to claim C3: movement speed is not part of the swapped
pose.  Toggling to orthographic, scrolling (delta 3, so the shared speed
becomes 4) and toggling back leaves the camera speed at 4 — not the 2.5 a
wholesale save/load of the pre-toggle perspective pose would restore. -/
theorem toggle_speed_not_restored :
    (switchToPerspective (mouseScrollCallback
      (switchToOrthographic initialViewState) 0 3)).camera.MovementSpeed = 4 ∧
    initialViewState.camera.MovementSpeed = 5/2 ∧ ((4 : ℝ) ≠ 5/2) := by
  refine ⟨?_, rfl, by norm_num⟩
  norm_num [switchToOrthographic, switchToPerspective, mouseScrollCallback,
    initialViewState, initialCamera, defaultCamera, processMouseMovement,
    updateCameraVectors]

/-- Claim C3 as amended: every projection-mode toggle — in either direction —
saves exactly position, front, up, yaw and pitch into the outgoing mode's
slot and loads the incoming slot's position/yaw/pitch, with front and up then
recomputed from the loaded yaw/pitch; zoom/FOV and movement speed are not
stored in either slot and are left unchanged on the live camera. -/
theorem toggle_swaps_five_pose_fields (s : VMState)
    (hready : s.cameraStatesReady = true) :
    (s.bOrthographicProjection = false → -89 ≤ s.orthographicPitch →
      s.orthographicPitch ≤ 89 →
      ((switchToOrthographic s).perspectivePosition = s.camera.Position ∧
       (switchToOrthographic s).perspectiveFront = s.camera.Front ∧
       (switchToOrthographic s).perspectiveUp = s.camera.Up ∧
       (switchToOrthographic s).perspectiveYaw = s.camera.Yaw ∧
       (switchToOrthographic s).perspectivePitch = s.camera.Pitch) ∧
      ((switchToOrthographic s).camera.Position = s.orthographicPosition ∧
       (switchToOrthographic s).camera.Yaw = s.orthographicYaw ∧
       (switchToOrthographic s).camera.Pitch = s.orthographicPitch ∧
       (switchToOrthographic s).camera.Front =
         cameraFrontFrom s.orthographicYaw s.orthographicPitch ∧
       (switchToOrthographic s).camera.Up =
         cameraUpFrom s.orthographicYaw s.orthographicPitch s.camera.WorldUp) ∧
      ((switchToOrthographic s).camera.Zoom = s.camera.Zoom ∧
       (switchToOrthographic s).camera.MovementSpeed = s.camera.MovementSpeed ∧
       (switchToOrthographic s).bOrthographicProjection = true ∧
       (switchToOrthographic s).gCameraSpeed = s.gCameraSpeed)) ∧
    (s.bOrthographicProjection = true → -89 ≤ s.perspectivePitch →
      s.perspectivePitch ≤ 89 →
      ((switchToPerspective s).orthographicPosition = s.camera.Position ∧
       (switchToPerspective s).orthographicFront = s.camera.Front ∧
       (switchToPerspective s).orthographicUp = s.camera.Up ∧
       (switchToPerspective s).orthographicYaw = s.camera.Yaw ∧
       (switchToPerspective s).orthographicPitch = s.camera.Pitch) ∧
      ((switchToPerspective s).camera.Position = s.perspectivePosition ∧
       (switchToPerspective s).camera.Yaw = s.perspectiveYaw ∧
       (switchToPerspective s).camera.Pitch = s.perspectivePitch ∧
       (switchToPerspective s).camera.Front =
         cameraFrontFrom s.perspectiveYaw s.perspectivePitch ∧
       (switchToPerspective s).camera.Up =
         cameraUpFrom s.perspectiveYaw s.perspectivePitch s.camera.WorldUp) ∧
      ((switchToPerspective s).camera.Zoom = s.camera.Zoom ∧
       (switchToPerspective s).camera.MovementSpeed = s.camera.MovementSpeed ∧
       (switchToPerspective s).bOrthographicProjection = false ∧
       (switchToPerspective s).gCameraSpeed = s.gCameraSpeed)) := by
  constructor
  · intro hmode hlo hhi
    have hg1 : (!s.bOrthographicProjection && s.cameraStatesReady) = true := by
      rw [hmode, hready]; rfl
    have e1 : switchToOrthographic s = { s with
        perspectivePosition := s.camera.Position
        perspectiveFront := s.camera.Front
        perspectiveUp := s.camera.Up
        perspectiveYaw := s.camera.Yaw
        perspectivePitch := s.camera.Pitch
        camera := processMouseMovement { s.camera with
            Position := s.orthographicPosition
            Front := s.orthographicFront
            Up := s.orthographicUp
            Yaw := s.orthographicYaw
            Pitch := s.orthographicPitch } 0 0
        bOrthographicProjection := true } := by
      unfold switchToOrthographic
      rw [if_pos hg1]
    have hcam : (switchToOrthographic s).camera = updateCameraVectors
        { s.camera with
          Position := s.orthographicPosition
          Front := s.orthographicFront
          Up := s.orthographicUp
          Yaw := s.orthographicYaw
          Pitch := s.orthographicPitch } := by
      rw [e1]
      exact processMouseMovement_zero_pose _ hlo hhi
    refine ⟨⟨?_, ?_, ?_, ?_, ?_⟩, ⟨?_, ?_, ?_, ?_, ?_⟩, ⟨?_, ?_, ?_, ?_⟩⟩ <;>
      first
        | (rw [hcam]; try rfl)
        | (rw [e1]; try rfl)
  · intro hmode hlo hhi
    have hg1 : (s.bOrthographicProjection && s.cameraStatesReady) = true := by
      rw [hmode, hready]; rfl
    have e1 : switchToPerspective s = { s with
        orthographicPosition := s.camera.Position
        orthographicFront := s.camera.Front
        orthographicUp := s.camera.Up
        orthographicYaw := s.camera.Yaw
        orthographicPitch := s.camera.Pitch
        camera := processMouseMovement { s.camera with
            Position := s.perspectivePosition
            Front := s.perspectiveFront
            Up := s.perspectiveUp
            Yaw := s.perspectiveYaw
            Pitch := s.perspectivePitch } 0 0
        bOrthographicProjection := false } := by
      unfold switchToPerspective
      rw [if_pos hg1]
    have hcam : (switchToPerspective s).camera = updateCameraVectors
        { s.camera with
          Position := s.perspectivePosition
          Front := s.perspectiveFront
          Up := s.perspectiveUp
          Yaw := s.perspectiveYaw
          Pitch := s.perspectivePitch } := by
      rw [e1]
      exact processMouseMovement_zero_pose _ hlo hhi
    refine ⟨⟨?_, ?_, ?_, ?_, ?_⟩, ⟨?_, ?_, ?_, ?_, ?_⟩, ⟨?_, ?_, ?_, ?_⟩⟩ <;>
      first
        | (rw [hcam]; try rfl)
        | (rw [e1]; try rfl)

/-- Witness for the amended claim C3, exercising both toggle directions: the
PERSPECTIVE-to-ORTHOGRAPHIC branch at the constructed initial state and the
ORTHOGRAPHIC-to-PERSPECTIVE branch at that state with the mode flag set. -/
theorem toggle_swaps_witness :
    (initialViewState.cameraStatesReady = true ∧
     initialViewState.bOrthographicProjection = false ∧
     -89 ≤ initialViewState.orthographicPitch ∧
     initialViewState.orthographicPitch ≤ 89) ∧
    ((switchToOrthographic initialViewState).perspectiveFront =
        initialViewState.camera.Front ∧
      (switchToOrthographic initialViewState).camera.MovementSpeed =
        initialViewState.camera.MovementSpeed ∧
      (switchToOrthographic initialViewState).camera.Zoom =
        initialViewState.camera.Zoom) ∧
    (({ initialViewState with bOrthographicProjection := true } : VMState).bOrthographicProjection = true ∧
     -89 ≤ ({ initialViewState with bOrthographicProjection := true } : VMState).perspectivePitch ∧
     ({ initialViewState with bOrthographicProjection := true } : VMState).perspectivePitch ≤ 89) ∧
    ((switchToPerspective { initialViewState with bOrthographicProjection := true }).orthographicFront =
        ({ initialViewState with bOrthographicProjection := true } : VMState).camera.Front ∧
      (switchToPerspective { initialViewState with bOrthographicProjection := true }).camera.MovementSpeed =
        ({ initialViewState with bOrthographicProjection := true } : VMState).camera.MovementSpeed ∧
      (switchToPerspective { initialViewState with bOrthographicProjection := true }).camera.Zoom =
        ({ initialViewState with bOrthographicProjection := true } : VMState).camera.Zoom) := by
  have h1 := (toggle_swaps_five_pose_fields initialViewState rfl).1 rfl
    (by norm_num [initialViewState]) (by norm_num [initialViewState])
  have h2 := (toggle_swaps_five_pose_fields
      { initialViewState with bOrthographicProjection := true } rfl).2 rfl
    (by norm_num [initialViewState]) (by norm_num [initialViewState])
  exact ⟨⟨rfl, rfl, by norm_num [initialViewState], by norm_num [initialViewState]⟩,
    ⟨h1.1.2.1, h1.2.2.2.1, h1.2.2.1⟩,
    ⟨rfl, by norm_num [initialViewState], by norm_num [initialViewState]⟩,
    ⟨h2.1.2.1, h2.2.2.2.1, h2.2.2.1⟩⟩
